import Mathlib

/-! virtfs (9P client) VFS operations: mount, unmount and vnode resolution

A shallow embedding of `sys/dev/virtio/fs/9pfs/virtfs_vfops.c` (namespace `Virtfs`) and of
the raw-to-temperature conversions of `sys/arm/allwinner/aw_thermal.c` (namespace
`AwThermal`).

* C `int` error codes are `Int`; flag words are `Nat` with the bitwise operators of `Nat`.
* Pointers to vnodes are addresses (`Nat`); a pointer that may be `NULL` is an `Option`.
* Calls that leave the file (`vflush`, `tsleep`, `getnewvnode`, `insmntque`, the 9P client
  requests) take their outcome from an environment record and are written to a trace of
  events, so that "is called" and "is not called" are statements about the trace.
-/

namespace Virtfs

/-! ## Constants of the kernel headers (`sys/errno.h`, `sys/mount.h`, `sys/vnode.h`,
`sys/lockmgr.h`, `sys/param.h`) -/

/-- Errno `EINTR`, interrupted system call. -/
def EINTR : Int := 4

/-- Errno `ENOMEM`, cannot allocate memory. -/
def ENOMEM : Int := 12

/-- Errno `EBUSY`, device busy. -/
def EBUSY : Int := 16

/-- Errno `EINVAL`, invalid argument. -/
def EINVAL : Int := 22

/-- Errno `EOPNOTSUPP`, operation not supported. -/
def EOPNOTSUPP : Int := 45

/-- Mount flag `MNT_LOCAL`: the filesystem is stored locally. -/
def MNT_LOCAL : Nat := 0x1000

/-- Mount flag `MNT_UPDATE`: the request updates an existing mount. -/
def MNT_UPDATE : Nat := 0x10000

/-- Mount flag `MNT_FORCE`: force the unmount. -/
def MNT_FORCE : Nat := 0x80000

/-- Flag `FORCECLOSE` of `vflush`: close active vnodes too. -/
def FORCECLOSE : Nat := 0x2

/-- Kernel mount flag `MNTK_EXTENDED_SHARED`. -/
def MNTK_EXTENDED_SHARED : Nat := 0x40

/-- Kernel mount flag `MNTK_LOOKUP_SHARED`. -/
def MNTK_LOOKUP_SHARED : Nat := 0x40000000

/-- Upper bound `MAXPHYS` on the size of one transfer. -/
def MAXPHYS : Nat := 128 * 1024

/-- Lock type `LK_EXCLUSIVE`. -/
def LK_EXCLUSIVE : Nat := 0x080000

/-- Lock type `LK_SHARED`. -/
def LK_SHARED : Nat := 0x200000

/-- Mask `LK_TYPE_MASK` of the lock type bits. -/
def LK_TYPE_MASK : Nat := 0xFF0000

/-- Vnode type `VDIR` of `enum vtype`. -/
def VDIR : Nat := 2

/-- Vnode flag `VV_ROOT`: root of its filesystem. -/
def VV_ROOT : Nat := 0x1

/-! ## Data model -/

/-- The server identity of a file, `struct virtfs_qid`. -/
structure virtfs_qid where
  qid_type : Nat
  qid_version : Nat
  qid_path : Nat
deriving DecidableEq, Repr

/-- A client handle, `struct p9_fid`; the code reads its number `fid->fid` only. -/
structure p9_fid where
  fid : Nat
deriving DecidableEq, Repr

/-- A plan9 node, `struct virtfs_node`. The back pointer `virtfs_ses` to the session that
contains the node is left out (it is cyclic and never read in this file). -/
structure virtfs_node where
  vfid : Option p9_fid
  v_node : Option Nat
  vqid : virtfs_qid
deriving DecidableEq, Repr

/-- The fields of `struct vnode` that `virtfs_vget_wrapper` writes in a vnode it allocated.
`v_data` points to the node whose `v_node` points back here, so it is kept as a flag. -/
structure vnode where
  addr : Nat
  v_type : Nat
  v_vflag : Nat
  v_data_set : Bool
deriving DecidableEq, Repr

/-- The attributes returned by `p9_client_getattr_dotl`; the code copies `qid` only. -/
structure p9_stat_dotl where
  qid : virtfs_qid
deriving DecidableEq, Repr

/-- The attributes returned by `p9_client_stat`; the code copies `qid` only. -/
structure p9_wstat where
  qid : virtfs_qid
deriving DecidableEq, Repr

/-- The session of a mount, `struct virtfs_session`: the root node `rnp`. The back pointer
`virtfs_mount` is left out. -/
structure virtfs_session where
  rnp : virtfs_node
deriving DecidableEq, Repr

/-- The private mount structure, `struct virtfs_mount` (the function `virtfs_mount` has
the plain name). The back pointer `virtfs_mountp` is left out. -/
structure struct_virtfs_mount where
  virtfs_session : virtfs_session
deriving DecidableEq, Repr

/-- The fields of `struct mount` this file reads or writes. `mnt_data` is the private
pointer returned by `VFSTOP9`; `none` is `NULL`. -/
structure mount where
  mnt_data : Option struct_virtfs_mount
  mnt_flag : Nat
  mnt_kern_flag : Nat
  mnt_iosize_max : Nat
  mnt_maxsymlinklen : Nat
  mnt_stat_f_fsid_val1 : Nat
  mnt_vfc_typenum : Nat
deriving DecidableEq, Repr

/-- A zero-filled node, as `malloc` with `M_ZERO` returns it. -/
def virtfs_node_zero : virtfs_node :=
  { vfid := none, v_node := none, vqid := { qid_type := 0, qid_version := 0, qid_path := 0 } }

/-! ## The vnode hash of one mount -/

/-- The chain of the vnode hash that belongs to one mount: pairs of `v_hash` and vnode
address, newest first (`LIST_INSERT_HEAD`). -/
abbrev vfs_hash := List (Nat × Nat)

/-- The `LIST_FOREACH` search of the hash chain: the first vnode whose `v_hash` is `hash`. -/
def vfs_hash_find (hash : Nat) : vfs_hash → Option Nat
  | [] => none
  | e :: rest => if e.1 = hash then some e.2 else vfs_hash_find hash rest

/-- Modelled from the spec: `vfs_hash_get` is not under src/. It is the spec's "atomic
lookup" on the key-to-vnode table: a miss gives error 0 and `NULL`; a hit takes a
reference on the vnode found, which may fail with `vget_error`, and otherwise gives
error 0 and that vnode. The result is the error and the content of `*vpp`. -/
def vfs_hash_get (vget_error : Int) (tbl : vfs_hash) (hash : Nat) : Int × Option Nat :=
  match vfs_hash_find hash tbl with
  | none => (0, none)
  | some vp => if vget_error ≠ 0 then (vget_error, none) else (0, some vp)

/-- Modelled from the spec: `vfs_hash_insert` is not under src/. It is the spec's atomic
"insert-if-absent, else return existing" step: when a vnode is present for the key the
table is unchanged and that vnode is returned in `*vpp` (or the error of referencing
it); otherwise `vp` is put at the head of the chain and `*vpp` is `NULL`. -/
def vfs_hash_insert (vget_error : Int) (tbl : vfs_hash) (vp : Nat) (hash : Nat) :
    Int × Option Nat × vfs_hash :=
  match vfs_hash_find hash tbl with
  | some vp2 => if vget_error ≠ 0 then (vget_error, none, tbl) else (0, some vp2, tbl)
  | none => (0, none, (hash, vp) :: tbl)

/-! ## `virtfs_vget_wrapper` -/

/-- What one call of `virtfs_vget_wrapper` gets from the functions it calls. -/
structure vget_env where
  /-- error of referencing the vnode that `vfs_hash_get` found -/
  hash_get_vget : Int
  /-- return value of `getnewvnode` -/
  getnewvnode_error : Int
  /-- address of the vnode `getnewvnode` allocated -/
  getnewvnode_vp : Nat
  /-- return value of `insmntque` -/
  insmntque_error : Int
  /-- error of referencing the vnode that `vfs_hash_insert` found -/
  hash_insert_vget : Int
  /-- value of `virtfs_proto_dotl(p9s)` -/
  virtfs_proto_dotl : Bool
  /-- result of `p9_client_getattr_dotl`; `none` is `NULL` -/
  p9_client_getattr_dotl : Option p9_stat_dotl
  /-- result of `p9_client_stat`; `none` is `NULL` -/
  p9_client_stat : Option p9_wstat
deriving DecidableEq, Repr

/-- The calls `virtfs_vget_wrapper` makes, in the order it makes them. -/
inductive vget_event
  | vfs_hash_get (ino flags : Nat)
  | getnewvnode
  | malloc_node
  | lockmgr (vp : Nat)
  | insmntque (vp : Nat)
  | free_node
  | vfs_hash_insert (vp ino flags : Nat)
  | p9_client_getattr_dotl (fid : Nat)
  | p9_client_stat (fid : Nat)
  | virtfs_stat_vnode_l
  | virtfs_stat_vnode_u (vp : Nat)
  | free_stat
deriving DecidableEq, Repr

/-- The local state of a call between its two accesses to the vnode hash: the vnode it
allocated, the node attached to it, the key `ino`, the lock flags and the handle. -/
structure vget_pending where
  vp : vnode
  p9_node : virtfs_node
  ino : Nat
  flags : Nat
  fid : p9_fid
deriving DecidableEq, Repr

/-- Outcome of the first part of a call: it returned, or it holds a new vnode to insert. -/
inductive vget_phase
  | returned (error : Int) (vpp : Option Nat)
  | pending (p : vget_pending)
deriving DecidableEq, Repr

/-- The result of a call: the returned error, `*vpp`, the vnode hash afterwards, the node
as the call left it (when it built one) and the calls made. -/
structure vget_result where
  error : Int
  vpp : Option Nat
  tbl : vfs_hash
  p9_node : Option virtfs_node
  trace : List vget_event
deriving DecidableEq, Repr

/-- Lines 143-198 of `virtfs_vget_wrapper`: the lookup in the vnode hash and, on a miss,
the allocation of a vnode and its node up to `insmntque`. The table is read once, by
`vfs_hash_get`, and not written. -/
def vget_lookup (env : vget_env) (tbl : vfs_hash) (p9_node : Option virtfs_node)
    (flags : Nat) (fid : p9_fid) : vget_phase × List vget_event :=
  let ino := fid.fid
  let r := vfs_hash_get env.hash_get_vget tbl ino
  let t1 := [vget_event.vfs_hash_get ino flags]
  if r.1 ≠ 0 ∨ r.2 ≠ none then
    (vget_phase.returned r.1 r.2, t1)
  else
    let flags := if flags &&& LK_TYPE_MASK = LK_SHARED then
        (flags - (flags &&& LK_TYPE_MASK)) ||| LK_EXCLUSIVE
      else flags
    if env.getnewvnode_error ≠ 0 then
      (vget_phase.returned env.getnewvnode_error none, t1 ++ [vget_event.getnewvnode])
    else
      let vp : vnode :=
        { addr := env.getnewvnode_vp, v_type := 0, v_vflag := 0, v_data_set := false }
      let t2 := t1 ++ [vget_event.getnewvnode]
      let built : vnode × virtfs_node × List vget_event :=
        match p9_node with
        | none =>
          ({ vp with v_data_set := true },
           { virtfs_node_zero with vfid := some fid, v_node := some vp.addr },
           t2 ++ [vget_event.malloc_node])
        | some n =>
          ({ vp with v_data_set := true, v_type := VDIR, v_vflag := vp.v_vflag ||| VV_ROOT },
           { n with v_node := some vp.addr },
           t2)
      let t3 := built.2.2 ++ [vget_event.lockmgr vp.addr, vget_event.insmntque vp.addr]
      if env.insmntque_error ≠ 0 then
        (vget_phase.returned env.insmntque_error none, t3 ++ [vget_event.free_node])
      else
        (vget_phase.pending
          { vp := built.1, p9_node := built.2.1, ino := ino, flags := flags, fid := fid }, t3)

/-- Lines 199-241 of `virtfs_vget_wrapper`: the insert in the vnode hash and, when the
vnode went in, the attribute fetch of the protocol variant in use. The table is accessed
once, by `vfs_hash_insert`. -/
def vget_insert (env : vget_env) (tbl : vfs_hash) (p : vget_pending) : vget_result :=
  let r := vfs_hash_insert env.hash_insert_vget tbl p.vp.addr p.ino
  let t1 := [vget_event.vfs_hash_insert p.vp.addr p.ino p.flags]
  if r.1 ≠ 0 ∨ r.2.1 ≠ none then
    { error := r.1, vpp := r.2.1, tbl := r.2.2, p9_node := some p.p9_node, trace := t1 }
  else if env.virtfs_proto_dotl then
    match env.p9_client_getattr_dotl with
    | none =>
      { error := -ENOMEM, vpp := r.2.1, tbl := r.2.2, p9_node := some p.p9_node,
        trace := t1 ++ [vget_event.p9_client_getattr_dotl p.fid.fid] }
    | some st =>
      { error := 0, vpp := some p.vp.addr, tbl := r.2.2,
        p9_node := some { p.p9_node with vqid := st.qid },
        trace := t1 ++ [vget_event.p9_client_getattr_dotl p.fid.fid,
          vget_event.virtfs_stat_vnode_l, vget_event.free_stat] }
  else
    match env.p9_client_stat with
    | none =>
      { error := -ENOMEM, vpp := r.2.1, tbl := r.2.2, p9_node := some p.p9_node,
        trace := t1 ++ [vget_event.p9_client_stat p.fid.fid] }
    | some st =>
      { error := 0, vpp := some p.vp.addr, tbl := r.2.2,
        p9_node := some { p.p9_node with vqid := st.qid },
        trace := t1 ++ [vget_event.p9_client_stat p.fid.fid,
          vget_event.virtfs_stat_vnode_u p.vp.addr, vget_event.free_stat] }

/-- The function `virtfs_vget_wrapper(mp, p9_node, flags, fid, vpp)` on the vnode hash
`tbl` of the mount. Between the call's `vfs_hash_get` and its `vfs_hash_insert` other
threads may change the vnode hash; `others` is that change (`id` when the call runs
alone). -/
def virtfs_vget_wrapper (env : vget_env) (others : vfs_hash → vfs_hash) (tbl : vfs_hash)
    (p9_node : Option virtfs_node) (flags : Nat) (fid : p9_fid) : vget_result :=
  match vget_lookup env tbl p9_node flags fid with
  | (vget_phase.returned error vpp, t) =>
    { error := error, vpp := vpp, tbl := tbl, p9_node := p9_node, trace := t }
  | (vget_phase.pending p, t) =>
    let r := vget_insert env (others tbl) p
    { r with trace := t ++ r.trace }

/-! ## Concurrent calls of `virtfs_vget_wrapper` on one mount -/

/-- A thread inside `virtfs_vget_wrapper`: before its `vfs_hash_get`, between its
`vfs_hash_get` and its `vfs_hash_insert`, or returned (with the key it used). -/
inductive vget_thread
  | ready (env : vget_env) (p9_node : Option virtfs_node) (flags : Nat) (fid : p9_fid)
  | inserting (env : vget_env) (p : vget_pending)
  | finished (ino : Nat) (error : Int) (vpp : Option Nat)
deriving DecidableEq, Repr

/-- The vnode hash of the mount and the threads that call `virtfs_vget_wrapper` on it. -/
structure vget_system where
  tbl : vfs_hash
  threads : List vget_thread
deriving DecidableEq, Repr

/-- One atomic step of a thread: a ready thread runs up to and including its
`vfs_hash_get` (and the thread-local allocation after a miss), an inserting thread runs
its `vfs_hash_insert` and the rest of the function. -/
def vget_thread_step (tbl : vfs_hash) : vget_thread → vfs_hash × vget_thread
  | vget_thread.ready env p9_node flags fid =>
    match (vget_lookup env tbl p9_node flags fid).1 with
    | vget_phase.returned error vpp => (tbl, vget_thread.finished fid.fid error vpp)
    | vget_phase.pending p => (tbl, vget_thread.inserting env p)
  | vget_thread.inserting env p =>
    let r := vget_insert env tbl p
    (r.tbl, vget_thread.finished p.ino r.error r.vpp)
  | vget_thread.finished ino error vpp => (tbl, vget_thread.finished ino error vpp)

/-- The scheduler lets thread `tid` take one step (nothing happens when there is no such
thread). -/
def vget_sched_step (s : vget_system) (tid : Nat) : vget_system :=
  match s.threads[tid]? with
  | none => s
  | some t =>
    let r := vget_thread_step s.tbl t
    { tbl := r.1, threads := s.threads.set tid r.2 }

/-- An interleaving: the threads step in the order the schedule names them. -/
def vget_run (s : vget_system) (schedule : List Nat) : vget_system :=
  schedule.foldl vget_sched_step s

/-- The arguments of one call: what its callees answer, `p9_node`, `flags` and `fid`. -/
structure vget_call where
  env : vget_env
  p9_node : Option virtfs_node
  flags : Nat
  fid : p9_fid
deriving DecidableEq, Repr

/-- The system in which every call is about to start on the vnode hash `tbl`. -/
def vget_start (tbl : vfs_hash) (calls : List vget_call) : vget_system :=
  { tbl := tbl,
    threads := calls.map fun c => vget_thread.ready c.env c.p9_node c.flags c.fid }

/-- The number of vnodes the vnode hash holds for the key `hash`. -/
def vfs_hash_count (hash : Nat) (tbl : vfs_hash) : Nat :=
  (tbl.filter fun e => decide (e.1 = hash)).length

/-! ## `virtfs_unmount` -/

/-- What `virtfs_unmount` gets from the kernel. Calls are numbered from 0 in the order
they are made. -/
structure unmount_env where
  /-- whether the `n`-th drain sweep `vflush(mp, 0, flags, curthread)` leaves busy vnodes -/
  vflush_busy : Nat → Nat → Bool
  /-- return value of the `n`-th `tsleep` -/
  tsleep : Nat → Int

/-- Modelled from the spec: `vflush` is not under src/. It is the spec's drain sweep over
the local references of the mount: it succeeds with 0 or fails with "busy" (`EBUSY`). -/
def vflush (env : unmount_env) (n : Nat) (flags : Nat) : Int :=
  if env.vflush_busy n flags then EBUSY else 0

/-- The calls `virtfs_unmount` makes, in the order it makes them. -/
inductive unmount_event
  | vflush (flags : Nat)
  | tsleep
  | virtfs_close_session
  | free_vmp
deriving DecidableEq, Repr

/-- The local variable `error` and the calls made so far. -/
structure unmount_state where
  error : Int
  vflush_calls : Nat
  tsleep_calls : Nat
  trace : List unmount_event
deriving DecidableEq, Repr

/-- The state of `virtfs_unmount` when it enters its loop: `error = 0`, no call made. -/
def unmount_init : unmount_state :=
  { error := 0, vflush_calls := 0, tsleep_calls := 0, trace := [] }

/-- The loop `for (i = 0; i < 10; i++)` of `virtfs_unmount` with `rem = 10 - i` rounds to
go; the body does not read `i`. A `break` returns the state, the end of the body goes on
with `rem - 1`. -/
def unmount_loop (env : unmount_env) (mntflags flags : Nat) :
    Nat → unmount_state → unmount_state
  | 0, s => s
  | rem + 1, s =>
    let s1 : unmount_state :=
      { s with error := vflush env s.vflush_calls flags,
               vflush_calls := s.vflush_calls + 1,
               trace := s.trace ++ [unmount_event.vflush flags] }
    if s1.error = 0 ∨ mntflags &&& MNT_FORCE = 0 then s1
    else
      let s2 : unmount_state :=
        { s1 with error := env.tsleep s1.tsleep_calls,
                  tsleep_calls := s1.tsleep_calls + 1,
                  trace := s1.trace ++ [unmount_event.tsleep] }
      if s2.error = EINTR then s2
      else unmount_loop env mntflags flags rem { s2 with error := EBUSY }

/-- The result of `virtfs_unmount`: the returned error, the mount afterwards and the calls
made. -/
structure unmount_result where
  error : Int
  mp : mount
  trace : List unmount_event
deriving DecidableEq, Repr

/-- The function `virtfs_unmount(mp, mntflags)`. -/
def virtfs_unmount (env : unmount_env) (mp : mount) (mntflags : Nat) : unmount_result :=
  match mp.mnt_data with
  | none => { error := 0, mp := mp, trace := [] }
  | some _ =>
    let flags := if mntflags &&& MNT_FORCE ≠ 0 then 0 ||| FORCECLOSE else 0
    let s := unmount_loop env mntflags flags 10 unmount_init
    if s.error ≠ 0 then
      { error := s.error, mp := mp, trace := s.trace }
    else
      { error := s.error, mp := { mp with mnt_data := none },
        trace := s.trace ++ [unmount_event.virtfs_close_session, unmount_event.free_vmp] }

/-! ## `p9_mount` and `virtfs_mount` -/

/-- What `p9_mount` gets from `virtfs_init_session`, the attach step: the root fid, or
`none` for `NULL`. -/
structure mount_env where
  virtfs_init_session : Option p9_fid
deriving DecidableEq, Repr

/-- The calls `p9_mount` makes, in the order it makes them. -/
inductive mount_event
  | malloc_vmp
  | virtfs_init_session
  | printf_mount_successful
deriving DecidableEq, Repr

/-- The result of a mount function: the returned error, the mount afterwards and the calls
made. -/
structure mount_result where
  error : Int
  mp : mount
  trace : List mount_event
deriving DecidableEq, Repr

/-- The function `p9_mount(mp)`. Its local `error` starts as `EINVAL` and is never
returned: the only `return` that is reached is `return 0`. -/
def p9_mount (env : mount_env) (mp : mount) : mount_result :=
  let mp1 : mount :=
    if mp.mnt_iosize_max > MAXPHYS then { mp with mnt_iosize_max := MAXPHYS } else mp
  let fid := env.virtfs_init_session
  let vmp : struct_virtfs_mount :=
    { virtfs_session := { rnp := { virtfs_node_zero with vfid := fid } } }
  { error := 0,
    mp := { mp1 with
      mnt_data := some vmp,
      mnt_stat_f_fsid_val1 := mp1.mnt_vfc_typenum,
      mnt_maxsymlinklen := 0,
      mnt_flag := mp1.mnt_flag ||| MNT_LOCAL,
      mnt_kern_flag := mp1.mnt_kern_flag ||| (MNTK_LOOKUP_SHARED ||| MNTK_EXTENDED_SHARED) },
    trace := [mount_event.malloc_vmp, mount_event.virtfs_init_session,
      mount_event.printf_mount_successful] }

/-- The function `virtfs_mount(mp)`. -/
def virtfs_mount (env : mount_env) (mp : mount) : mount_result :=
  if mp.mnt_flag &&& MNT_UPDATE ≠ 0 then
    { error := EOPNOTSUPP, mp := mp, trace := [] }
  else
    let r := p9_mount env mp
    if r.error ≠ 0 then r
    else { error := 0, mp := r.mp, trace := r.trace }

/-- The invariant of the concurrent system: the vnode hash holds at most one vnode per
key, and a thread that returned 0 returned the vnode the vnode hash holds for its key. -/
def vget_inv (s : vget_system) : Prop :=
  (∀ k, vfs_hash_count k s.tbl ≤ 1) ∧
  (∀ k v, vget_thread.finished k 0 v ∈ s.threads →
    ∃ vp, v = some vp ∧ vfs_hash_find k s.tbl = some vp)

/-- The calls of `j` rounds of the retry loop in which the drain sweep failed and the
sleep ran: `j` times a `vflush` followed by a `tsleep`. -/
def retry_trace (flags : Nat) (j : Nat) : List unmount_event :=
  (List.replicate j [unmount_event.vflush flags, unmount_event.tsleep]).flatten

/-! ## `virtfs_root` -/

/-- The result of a call of `virtfs_root` that returns: the returned error, `*vpp`, the
mount (its root node is written through `np`), the vnode hash, the calls made by
`virtfs_vget_wrapper` and the vnode `vref` was called on. -/
structure root_result where
  error : Int
  vpp : Option Nat
  mp : mount
  tbl : vfs_hash
  trace : List vget_event
  vref : Option Nat
deriving DecidableEq, Repr

/-- The function `virtfs_root(mp, lkflags, vpp)`. It has no test of `vmp`: `np` is
`&vmp->virtfs_session.rnp` and the argument `np->vfid` is loaded through it, so with
`mnt_data == NULL` the load goes through a pointer made from `NULL` and the function
does not return; that outcome is `none`. The same holds for the load `fid->fid` in
`virtfs_vget_wrapper` when the root node has no fid. -/
def virtfs_root (env : vget_env) (others : vfs_hash → vfs_hash) (tbl : vfs_hash)
    (mp : mount) (lkflags : Nat) : Option root_result :=
  match mp.mnt_data with
  | none => none
  | some vmp =>
    let np := vmp.virtfs_session.rnp
    match np.vfid with
    | none => none
    | some fid =>
      let r := virtfs_vget_wrapper env others tbl (some np) lkflags fid
      let np1 := r.p9_node.getD np
      if r.error ≠ 0 then
        let vmp1 : struct_virtfs_mount := { virtfs_session := { rnp := np1 } }
        some { error := r.error, vpp := none, mp := { mp with mnt_data := some vmp1 },
               tbl := r.tbl, trace := r.trace, vref := none }
      else
        let np2 : virtfs_node := { np1 with v_node := r.vpp }
        let vmp2 : struct_virtfs_mount := { virtfs_session := { rnp := np2 } }
        some { error := r.error, vpp := r.vpp, mp := { mp with mnt_data := some vmp2 },
               tbl := r.tbl, trace := r.trace, vref := r.vpp }

end Virtfs

/-! ## Raw-to-temperature conversions of `sys/arm/allwinner/aw_thermal.c` -/

namespace AwThermal

/-- Constant `A83T_TEMP_BASE`. -/
def A83T_TEMP_BASE : Nat := 2719000

/-- Constant `A83T_TEMP_MUL`. -/
def A83T_TEMP_MUL : Nat := 1000

/-- Constant `A83T_TEMP_DIV`. -/
def A83T_TEMP_DIV : Nat := 14186

/-- Constant `A64_TEMP_BASE`. -/
def A64_TEMP_BASE : Nat := 2170000

/-- Constant `A64_TEMP_MUL`. -/
def A64_TEMP_MUL : Nat := 1000

/-- Constant `A64_TEMP_DIV`. -/
def A64_TEMP_DIV : Nat := 8560

/-- Constant `H3_TEMP_BASE`. -/
def H3_TEMP_BASE : Int := 1794000

/-- Constant `H3_TEMP_MUL`. -/
def H3_TEMP_MUL : Nat := 1000

/-- Constant `H3_TEMP_DIV`. -/
def H3_TEMP_DIV : Int := -8253

/-- Mask `DATA_MASK` of a raw reading: 12 bits. -/
def DATA_MASK : Nat := 0xfff

/-- Product of two `uint32_t` values. -/
def u32_mul (a b : Nat) : Nat := (a * b) % 2 ^ 32

/-- Difference of two `uint32_t` values. -/
def u32_sub (a b : Nat) : Nat := (a % 2 ^ 32 + 2 ^ 32 - b % 2 ^ 32) % 2 ^ 32

/-- Conversion of a `uint32_t` value to `int` (two's complement). -/
def u32_to_int (a : Nat) : Int :=
  if a % 2 ^ 32 < 2 ^ 31 then ((a % 2 ^ 32 : Nat) : Int) else ((a % 2 ^ 32 : Nat) : Int) - 2 ^ 32

/-- The function `a83t_to_temp(uint32_t val)`. Its operand `val` is `uint32_t`, so the
product, the difference and the quotient are computed in `uint32_t` and the result is
converted to `int` on return. -/
def a83t_to_temp (val : Nat) : Int :=
  u32_to_int (u32_sub A83T_TEMP_BASE (u32_mul val A83T_TEMP_MUL) / A83T_TEMP_DIV)

/-- The function `a64_to_temp(uint32_t val)`, computed in `uint32_t` like
`a83t_to_temp`. -/
def a64_to_temp (val : Nat) : Int :=
  u32_to_int (u32_sub A64_TEMP_BASE (u32_mul val A64_TEMP_MUL) / A64_TEMP_DIV)

/-- The function `h3_to_temp(uint32_t val)`: the product is cast to `int` before the
subtraction, so the difference and the quotient are signed. -/
def h3_to_temp (val : Nat) : Int :=
  Int.tdiv (u32_to_int (u32_mul val H3_TEMP_MUL) - H3_TEMP_BASE) H3_TEMP_DIV

end AwThermal

namespace Virtfs

/-! ## Sample inputs -/

/-- A call environment in which every callee succeeds: `getnewvnode` hands out the vnode
at address `vp`, the protocol variant is `dotl`, both attribute fetches answer. -/
def sample_env (vp : Nat) (dotl : Bool) : vget_env :=
  { hash_get_vget := 0, getnewvnode_error := 0, getnewvnode_vp := vp, insmntque_error := 0,
    hash_insert_vget := 0, virtfs_proto_dotl := dotl,
    p9_client_getattr_dotl := some { qid := { qid_type := 0, qid_version := 1, qid_path := 77 } },
    p9_client_stat := some { qid := { qid_type := 0, qid_version := 1, qid_path := 77 } } }

/-- The environment `sample_env` with both attribute fetches failing (they return `NULL`). -/
def sample_env_nostat (vp : Nat) (dotl : Bool) : vget_env :=
  { sample_env vp dotl with p9_client_getattr_dotl := none, p9_client_stat := none }

/-- Two calls for the same fid 7 on one mount; `getnewvnode` would give the first the
vnode at 100 and the second the vnode at 200. -/
def sample_calls : List vget_call :=
  [{ env := sample_env 100 true, p9_node := none, flags := 0, fid := p9_fid.mk 7 },
   { env := sample_env 200 false, p9_node := none, flags := 0, fid := p9_fid.mk 7 }]

/-- A mounted mount: `mnt_data` points to a private structure whose root node has fid 1. -/
def sample_mounted : mount :=
  { mnt_data := some { virtfs_session := { rnp := { virtfs_node_zero with vfid := some (p9_fid.mk 1) } } },
    mnt_flag := MNT_LOCAL, mnt_kern_flag := MNTK_LOOKUP_SHARED ||| MNTK_EXTENDED_SHARED,
    mnt_iosize_max := 65536, mnt_maxsymlinklen := 0, mnt_stat_f_fsid_val1 := 9,
    mnt_vfc_typenum := 9 }

/-- A mount that is not mounted yet: `mnt_data` is `NULL` and no flag is set. -/
def sample_unmounted : mount :=
  { mnt_data := none, mnt_flag := 0, mnt_kern_flag := 0, mnt_iosize_max := 65536,
    mnt_maxsymlinklen := 0, mnt_stat_f_fsid_val1 := 0, mnt_vfc_typenum := 9 }

/-- A kernel in which every drain sweep finds busy vnodes and every sleep runs to its
timeout (`tsleep` returns `EWOULDBLOCK`, 35). -/
def env_always_busy : unmount_env :=
  { vflush_busy := fun _ _ => true, tsleep := fun _ => 35 }

/-- A kernel in which every drain sweep finds busy vnodes and the `k`-th sleep (counted
from 1) is the one a signal interrupts. -/
def env_interrupt_at (k : Nat) : unmount_env :=
  { vflush_busy := fun _ _ => true, tsleep := fun n => if n + 1 = k then EINTR else 35 }

/-- A kernel in which the drain sweep without `FORCECLOSE` finds busy vnodes; nothing
sleeps long enough to be interrupted. -/
def env_busy_once : unmount_env :=
  { vflush_busy := fun _ flags => decide (flags = 0), tsleep := fun _ => 35 }

/-- A kernel in which the drain sweeps before the `k`-th (counted from 1) find busy
vnodes, the `k`-th and later ones succeed, and every sleep runs to its timeout. -/
def env_drain_at (k : Nat) : unmount_env :=
  { vflush_busy := fun n _ => decide (n + 1 < k), tsleep := fun _ => 35 }

/-! ## Theorems -/

/-- C1: when the lookup of `virtfs_vget_wrapper` (`vfs_hash_get` on `fid->fid`) finds a
vnode, the call returns 0 with that vnode, leaves the vnode hash as it is and makes no
other call than the lookup: no `getnewvnode`, no `vfs_hash_insert`, no attribute fetch. -/
theorem vget_wrapper_hit (env : vget_env) (others : vfs_hash → vfs_hash) (tbl : vfs_hash)
    (p9_node : Option virtfs_node) (flags : Nat) (fid : p9_fid) (vp : Nat)
    (hhit : vfs_hash_get env.hash_get_vget tbl fid.fid = (0, some vp)) :
    (virtfs_vget_wrapper env others tbl p9_node flags fid).error = 0 ∧
    (virtfs_vget_wrapper env others tbl p9_node flags fid).vpp = some vp ∧
    vfs_hash_find fid.fid tbl = some vp ∧
    (virtfs_vget_wrapper env others tbl p9_node flags fid).tbl = tbl ∧
    (virtfs_vget_wrapper env others tbl p9_node flags fid).trace =
      [vget_event.vfs_hash_get fid.fid flags] := by
  have hfind : vfs_hash_find fid.fid tbl = some vp := by
    unfold vfs_hash_get at hhit
    cases hf : vfs_hash_find fid.fid tbl with
    | none => simp [hf] at hhit
    | some w =>
      simp only [hf] at hhit
      split at hhit
      · simp at hhit
      · simpa using hhit
  simp [virtfs_vget_wrapper, vget_lookup, hhit, hfind]

/-- C1, at a sample input: key 5 is cached with the vnode at 100; a call with fid 5
returns that vnode. -/
theorem vget_wrapper_hit_witness :
    vfs_hash_get (sample_env 200 true).hash_get_vget [(5, 100)] (p9_fid.mk 5).fid
      = (0, some 100) ∧
    (virtfs_vget_wrapper (sample_env 200 true) id [(5, 100)] none 0 (p9_fid.mk 5)).error = 0 ∧
    (virtfs_vget_wrapper (sample_env 200 true) id [(5, 100)] none 0 (p9_fid.mk 5)).vpp
      = some 100 ∧
    vfs_hash_find (p9_fid.mk 5).fid [(5, 100)] = some 100 ∧
    (virtfs_vget_wrapper (sample_env 200 true) id [(5, 100)] none 0 (p9_fid.mk 5)).tbl
      = [(5, 100)] ∧
    (virtfs_vget_wrapper (sample_env 200 true) id [(5, 100)] none 0 (p9_fid.mk 5)).trace =
      [vget_event.vfs_hash_get (p9_fid.mk 5).fid 0] :=
  ⟨by decide, vget_wrapper_hit (sample_env 200 true) id [(5, 100)] none 0 (p9_fid.mk 5) 100
    (by decide)⟩

/-- C3: a call of `virtfs_vget_wrapper` that misses in its lookup, reaches its
`vfs_hash_insert` and finds there that another thread has put a vnode under the key in
the meantime returns 0 with that vnode (the entry of the vnode hash, `winner`), does not
put its own vnode in the vnode hash and makes no attribute fetch. -/
theorem vget_wrapper_insert_race (env : vget_env) (others : vfs_hash → vfs_hash)
    (tbl : vfs_hash) (p9_node : Option virtfs_node) (flags : Nat) (fid : p9_fid)
    (winner : Nat)
    (hmiss : vfs_hash_get env.hash_get_vget tbl fid.fid = (0, none))
    (hnew : env.getnewvnode_error = 0) (hque : env.insmntque_error = 0)
    (hrace : vfs_hash_insert env.hash_insert_vget (others tbl) env.getnewvnode_vp fid.fid
      = (0, some winner, others tbl)) :
    (virtfs_vget_wrapper env others tbl p9_node flags fid).error = 0 ∧
    (virtfs_vget_wrapper env others tbl p9_node flags fid).vpp = some winner ∧
    vfs_hash_find fid.fid (others tbl) = some winner ∧
    (virtfs_vget_wrapper env others tbl p9_node flags fid).tbl = others tbl ∧
    (env.getnewvnode_vp ≠ winner →
      (virtfs_vget_wrapper env others tbl p9_node flags fid).vpp ≠ some env.getnewvnode_vp) ∧
    (∀ f, vget_event.p9_client_getattr_dotl f ∉
      (virtfs_vget_wrapper env others tbl p9_node flags fid).trace) ∧
    (∀ f, vget_event.p9_client_stat f ∉
      (virtfs_vget_wrapper env others tbl p9_node flags fid).trace) := by
  have hfind : vfs_hash_find fid.fid (others tbl) = some winner := by
    unfold vfs_hash_insert at hrace
    cases hf : vfs_hash_find fid.fid (others tbl) with
    | none => simp [hf] at hrace
    | some w =>
      simp only [hf] at hrace
      split at hrace
      · simp at hrace
      · simpa using hrace
  have hres : (virtfs_vget_wrapper env others tbl p9_node flags fid).error = 0 ∧
      (virtfs_vget_wrapper env others tbl p9_node flags fid).vpp = some winner ∧
      (virtfs_vget_wrapper env others tbl p9_node flags fid).tbl = others tbl ∧
      (∀ f, vget_event.p9_client_getattr_dotl f ∉
        (virtfs_vget_wrapper env others tbl p9_node flags fid).trace) ∧
      (∀ f, vget_event.p9_client_stat f ∉
        (virtfs_vget_wrapper env others tbl p9_node flags fid).trace) := by
    cases p9_node <;>
      simp [virtfs_vget_wrapper, vget_lookup, vget_insert, hmiss, hnew, hque, hrace]
  refine ⟨hres.1, hres.2.1, hfind, hres.2.2.1, ?_, hres.2.2.2.1, hres.2.2.2.2⟩
  intro hne hown
  rw [hres.2.1] at hown
  exact hne (Option.some.inj hown).symm

/-- C3, at a sample input: the call with fid 5 misses on the empty vnode hash and
allocates the vnode at 200; before its insert another thread puts the vnode at 100 under
key 5; the call returns the vnode at 100. -/
theorem vget_wrapper_insert_race_witness :
    (virtfs_vget_wrapper (sample_env 200 true) (fun t => (5, 100) :: t) [] none 0
      (p9_fid.mk 5)).error = 0 ∧
    (virtfs_vget_wrapper (sample_env 200 true) (fun t => (5, 100) :: t) [] none 0
      (p9_fid.mk 5)).vpp = some 100 ∧
    (virtfs_vget_wrapper (sample_env 200 true) (fun t => (5, 100) :: t) [] none 0
      (p9_fid.mk 5)).tbl = [(5, 100)] :=
  have h := vget_wrapper_insert_race (sample_env 200 true) (fun t => (5, 100) :: t) []
    none 0 (p9_fid.mk 5) 100 (by decide) (by decide) (by decide) (by decide)
  ⟨h.1, h.2.1, h.2.2.2.1⟩

/-- C4, at a failing input: on the empty vnode hash a call with fid 5 allocates the vnode
at 100, inserts it and then fails in its attribute fetch (in either protocol variant).
It returns `-ENOMEM` with `*vpp = NULL`, but the vnode hash is not the one from before:
it holds the new vnode under key 5, and a later call for fid 5 gets that vnode with
error 0 and without any attribute fetch. -/
theorem vget_wrapper_fetch_failure_leaves_entry :
    (virtfs_vget_wrapper (sample_env_nostat 100 true) id [] none 0 (p9_fid.mk 5)).error
      = -ENOMEM ∧
    (virtfs_vget_wrapper (sample_env_nostat 100 true) id [] none 0 (p9_fid.mk 5)).vpp
      = none ∧
    (virtfs_vget_wrapper (sample_env_nostat 100 true) id [] none 0 (p9_fid.mk 5)).tbl
      = [(5, 100)] ∧
    (virtfs_vget_wrapper (sample_env_nostat 100 false) id [] none 0 (p9_fid.mk 5)).error
      = -ENOMEM ∧
    (virtfs_vget_wrapper (sample_env_nostat 100 false) id [] none 0 (p9_fid.mk 5)).tbl
      = [(5, 100)] ∧
    (virtfs_vget_wrapper (sample_env_nostat 100 true) id [] none 0 (p9_fid.mk 5)).tbl
      ≠ [] ∧
    (virtfs_vget_wrapper (sample_env 200 true) id
      (virtfs_vget_wrapper (sample_env_nostat 100 true) id [] none 0 (p9_fid.mk 5)).tbl
      none 0 (p9_fid.mk 5)).error = 0 ∧
    (virtfs_vget_wrapper (sample_env 200 true) id
      (virtfs_vget_wrapper (sample_env_nostat 100 true) id [] none 0 (p9_fid.mk 5)).tbl
      none 0 (p9_fid.mk 5)).vpp = some 100 ∧
    (virtfs_vget_wrapper (sample_env 200 true) id
      (virtfs_vget_wrapper (sample_env_nostat 100 true) id [] none 0 (p9_fid.mk 5)).tbl
      none 0 (p9_fid.mk 5)).trace = [vget_event.vfs_hash_get 5 0] := by
  decide

/-- A key the search does not find has no entry in the vnode hash. -/
theorem vfs_hash_count_of_find_none (k : Nat) (tbl : vfs_hash)
    (h : vfs_hash_find k tbl = none) : vfs_hash_count k tbl = 0 := by
  induction tbl with
  | nil => rfl
  | cons e rest ih =>
    unfold vfs_hash_find at h
    by_cases he : e.1 = k
    · simp [he] at h
    · simp only [he, if_false] at h
      have := ih h
      unfold vfs_hash_count at this ⊢
      simpa [List.filter_cons, he] using this

/-- The count of a key after an entry is put at the head of the chain. -/
theorem vfs_hash_count_cons (k : Nat) (e : Nat × Nat) (tbl : vfs_hash) :
    vfs_hash_count k (e :: tbl) = (if e.1 = k then 1 else 0) + vfs_hash_count k tbl := by
  unfold vfs_hash_count
  by_cases he : e.1 = k
  · simp [List.filter_cons, he]; omega
  · simp [List.filter_cons, he]

/-- What `vget_insert` does to the vnode hash and what it returns on success: either the
key is present, the table stays and the vnode present is returned, or the key is absent,
the new vnode goes in at the head and is the one returned. -/
theorem vget_insert_cases (env : vget_env) (tbl : vfs_hash) (p : vget_pending) :
    ((∃ w, vfs_hash_find p.ino tbl = some w ∧ (vget_insert env tbl p).tbl = tbl ∧
        ((vget_insert env tbl p).error = 0 → (vget_insert env tbl p).vpp = some w)) ∨
     (vfs_hash_find p.ino tbl = none ∧
        (vget_insert env tbl p).tbl = (p.ino, p.vp.addr) :: tbl ∧
        ((vget_insert env tbl p).error = 0 →
          (vget_insert env tbl p).vpp = some p.vp.addr))) := by
  cases hf : vfs_hash_find p.ino tbl with
  | some w =>
    left
    refine ⟨w, rfl, ?_, ?_⟩
    · by_cases hv : env.hash_insert_vget = 0 <;>
        simp [vget_insert, vfs_hash_insert, hf, hv]
    · by_cases hv : env.hash_insert_vget = 0 <;>
        simp [vget_insert, vfs_hash_insert, hf, hv]
  | none =>
    right
    refine ⟨rfl, ?_, ?_⟩
    · cases hd : env.virtfs_proto_dotl <;> cases hg : env.p9_client_getattr_dotl <;>
        cases hs : env.p9_client_stat <;>
        simp [vget_insert, vfs_hash_insert, hf, hd, hg, hs]
    · cases hd : env.virtfs_proto_dotl <;> cases hg : env.p9_client_getattr_dotl <;>
        cases hs : env.p9_client_stat <;>
        simp [vget_insert, vfs_hash_insert, hf, hd, hg, hs, ENOMEM]

/-- A successful return out of the lookup part is a hit: it returns the vnode found. -/
theorem vget_lookup_returned (env : vget_env) (tbl : vfs_hash)
    (p9_node : Option virtfs_node) (flags : Nat) (fid : p9_fid) (vpp : Option Nat)
    (h : (vget_lookup env tbl p9_node flags fid).1 = vget_phase.returned 0 vpp) :
    ∃ vp, vpp = some vp ∧ vfs_hash_find fid.fid tbl = some vp := by
  unfold vget_lookup at h
  simp only at h
  split at h
  · rename_i hret
    simp only [vget_phase.returned.injEq] at h
    obtain ⟨h1, h2⟩ := h
    unfold vfs_hash_get at h1 h2 hret
    cases hf : vfs_hash_find fid.fid tbl with
    | none => simp [hf] at hret
    | some w =>
      by_cases hv : env.hash_get_vget = 0
      · simp [hf, hv] at h2
        exact ⟨w, h2.symm, rfl⟩
      · simp [hf, hv] at h1
  · split at h
    · rename_i hne
      simp only [vget_phase.returned.injEq] at h
      exact absurd h.1 hne
    · split at h
      · rename_i hne
        simp only [vget_phase.returned.injEq] at h
        exact absurd h.1 hne
      · simp at h

/-- The key a thread carries out of the lookup part is the number of its fid. -/
theorem vget_lookup_pending_ino (env : vget_env) (tbl : vfs_hash)
    (p9_node : Option virtfs_node) (flags : Nat) (fid : p9_fid) (p : vget_pending)
    (h : (vget_lookup env tbl p9_node flags fid).1 = vget_phase.pending p) :
    p.ino = fid.fid := by
  unfold vget_lookup at h
  simp only at h
  split at h
  · simp at h
  · split at h
    · simp at h
    · split at h
      · simp at h
      · simp only [vget_phase.pending.injEq] at h
        rw [← h]

/-- One step of one thread keeps the invariant. -/
theorem vget_inv_sched_step (s : vget_system) (tid : Nat) (hinv : vget_inv s) :
    vget_inv (vget_sched_step s tid) := by
  unfold vget_sched_step
  cases ht : s.threads[tid]? with
  | none => simpa using hinv
  | some t =>
    have htmem : t ∈ s.threads := List.getElem?_mem ht
    obtain ⟨hcount, hfin⟩ := hinv
    cases t with
    | ready env p9_node flags fid =>
      simp only [vget_thread_step]
      cases hl : (vget_lookup env s.tbl p9_node flags fid).1 with
      | returned error vpp =>
        refine ⟨hcount, ?_⟩
        intro k v hmem
        rcases List.mem_or_eq_of_mem_set hmem with hold | hnew
        · exact hfin k v hold
        · simp only [vget_thread.finished.injEq] at hnew
          obtain ⟨hk, he, hv⟩ := hnew
          subst hk; subst he; subst hv
          exact vget_lookup_returned env s.tbl p9_node flags fid v hl
      | pending p =>
        refine ⟨hcount, ?_⟩
        intro k v hmem
        rcases List.mem_or_eq_of_mem_set hmem with hold | hnew
        · exact hfin k v hold
        · simp at hnew
    | inserting env p =>
      simp only [vget_thread_step]
      rcases vget_insert_cases env s.tbl p with ⟨w, hw, htbl, hres⟩ | ⟨hnone, htbl, hres⟩
      · rw [htbl]
        refine ⟨hcount, ?_⟩
        intro k v hmem
        rcases List.mem_or_eq_of_mem_set hmem with hold | hnew
        · exact hfin k v hold
        · simp only [vget_thread.finished.injEq] at hnew
          obtain ⟨hk, he, hv⟩ := hnew
          subst hk
          exact ⟨w, by rw [hv]; exact hres he.symm, hw⟩
      · rw [htbl]
        refine ⟨?_, ?_⟩
        · intro k
          rw [vfs_hash_count_cons]
          by_cases hk : p.ino = k
          · subst hk
            simp [vfs_hash_count_of_find_none _ _ hnone]
          · simpa [hk] using hcount k
        · intro k v hmem
          rcases List.mem_or_eq_of_mem_set hmem with hold | hnew
          · obtain ⟨vp, hv, hf⟩ := hfin k v hold
            refine ⟨vp, hv, ?_⟩
            by_cases hk : p.ino = k
            · subst hk
              rw [hnone] at hf
              exact absurd hf (by simp)
            · simp [vfs_hash_find, hk, hf]
          · simp only [vget_thread.finished.injEq] at hnew
            obtain ⟨hk, he, hv⟩ := hnew
            subst hk
            exact ⟨p.vp.addr, by rw [hv]; exact hres he.symm, by simp [vfs_hash_find]⟩
    | finished ino error vpp =>
      simp only [vget_thread_step]
      refine ⟨hcount, ?_⟩
      intro k v hmem
      rcases List.mem_or_eq_of_mem_set hmem with hold | hnew
      · exact hfin k v hold
      · rw [← hnew] at htmem
        exact hfin k v htmem

/-- Every interleaving keeps the invariant. -/
theorem vget_inv_run (schedule : List Nat) :
    ∀ s : vget_system, vget_inv s → vget_inv (vget_run s schedule) := by
  induction schedule with
  | nil => intro s h; exact h
  | cons tid rest ih =>
    intro s h
    exact ih (vget_sched_step s tid) (vget_inv_sched_step s tid h)

/-- C2: identity uniqueness. Start every call of `virtfs_vget_wrapper` on a vnode hash
that holds at most one vnode per key and let the threads step in any order, each
`vfs_hash_get` and each `vfs_hash_insert` being one atomic step. Then at every point the
vnode hash holds at most one vnode per key, and any two calls that returned 0 for the
same key returned the same vnode, which is the one the vnode hash holds for the key. -/
theorem vget_identity_unique (tbl : vfs_hash) (calls : List vget_call)
    (schedule : List Nat) (hinit : ∀ k, vfs_hash_count k tbl ≤ 1) :
    (∀ k, vfs_hash_count k (vget_run (vget_start tbl calls) schedule).tbl ≤ 1) ∧
    (∀ k v w,
      vget_thread.finished k 0 v ∈ (vget_run (vget_start tbl calls) schedule).threads →
      vget_thread.finished k 0 w ∈ (vget_run (vget_start tbl calls) schedule).threads →
      v = w ∧ ∃ vp, v = some vp ∧
        vfs_hash_find k (vget_run (vget_start tbl calls) schedule).tbl = some vp) := by
  have hstart : vget_inv (vget_start tbl calls) := by
    refine ⟨hinit, ?_⟩
    intro k v hmem
    simp [vget_start] at hmem
  obtain ⟨hcount, hfin⟩ := vget_inv_run schedule _ hstart
  refine ⟨hcount, ?_⟩
  intro k v w hv hw
  obtain ⟨vp, hvp, hf⟩ := hfin k v hv
  obtain ⟨wp, hwp, hg⟩ := hfin k w hw
  refine ⟨?_, vp, hvp, hf⟩
  rw [hvp, hwp]
  rw [hf] at hg
  exact hg

/-- C2, at a sample input: two calls for fid 7 both miss on the empty vnode hash, then
the first inserts the vnode at 100 and the second finds it at its insert; both return
the vnode at 100 and the vnode hash holds that one vnode. -/
theorem vget_identity_unique_witness :
    (∀ k, vfs_hash_count k [] ≤ 1) ∧
    vget_run (vget_start [] sample_calls) [0, 1, 0, 1] =
      { tbl := [(7, 100)],
        threads := [vget_thread.finished 7 0 (some 100),
                    vget_thread.finished 7 0 (some 100)] } ∧
    ((∀ k, vfs_hash_count k (vget_run (vget_start [] sample_calls) [0, 1, 0, 1]).tbl ≤ 1) ∧
    (∀ k v w,
      vget_thread.finished k 0 v ∈
        (vget_run (vget_start [] sample_calls) [0, 1, 0, 1]).threads →
      vget_thread.finished k 0 w ∈
        (vget_run (vget_start [] sample_calls) [0, 1, 0, 1]).threads →
      v = w ∧ ∃ vp, v = some vp ∧
        vfs_hash_find k (vget_run (vget_start [] sample_calls) [0, 1, 0, 1]).tbl
          = some vp)) :=
  ⟨fun _ => Nat.zero_le 1, by decide,
    vget_identity_unique [] sample_calls [0, 1, 0, 1] (fun _ => Nat.zero_le 1)⟩

/-- C5, at a failing input: a mount request without `MNT_UPDATE` whose attach step fails
(`virtfs_init_session` returns `NULL`). `virtfs_mount` returns 0, the private mount
structure stays attached (`mnt_data` is not `NULL`, its root node has no fid) and
`MNT_LOCAL` has been added to the mount flags. -/
theorem virtfs_mount_attach_failure_succeeds :
    sample_unmounted.mnt_flag &&& MNT_UPDATE = 0 ∧
    (virtfs_mount { virtfs_init_session := none } sample_unmounted).error = 0 ∧
    (virtfs_mount { virtfs_init_session := none } sample_unmounted).mp.mnt_data =
      some { virtfs_session := { rnp := { virtfs_node_zero with vfid := none } } } ∧
    (virtfs_mount { virtfs_init_session := none } sample_unmounted).mp.mnt_data ≠ none ∧
    (virtfs_mount { virtfs_init_session := none } sample_unmounted).mp.mnt_flag = MNT_LOCAL ∧
    (virtfs_mount { virtfs_init_session := none } sample_unmounted).mp.mnt_flag ≠
      sample_unmounted.mnt_flag := by
  decide

/-- C6: a mount request with `MNT_UPDATE` set makes `virtfs_mount` return `EOPNOTSUPP`
with the mount untouched (`mnt_data`, `mnt_flag`, `mnt_kern_flag` and `mnt_iosize_max`
keep their values) and without any call: `p9_mount` does not run, no session is
initialised. -/
theorem virtfs_mount_update_rejected (env : mount_env) (mp : mount)
    (hupdate : mp.mnt_flag &&& MNT_UPDATE ≠ 0) :
    (virtfs_mount env mp).error = EOPNOTSUPP ∧
    (virtfs_mount env mp).mp = mp ∧
    (virtfs_mount env mp).mp.mnt_data = mp.mnt_data ∧
    (virtfs_mount env mp).mp.mnt_flag = mp.mnt_flag ∧
    (virtfs_mount env mp).mp.mnt_kern_flag = mp.mnt_kern_flag ∧
    (virtfs_mount env mp).mp.mnt_iosize_max = mp.mnt_iosize_max ∧
    (virtfs_mount env mp).trace = [] := by
  simp [virtfs_mount, hupdate]

/-- C6, at a sample input: a remount request on a mounted mount. -/
theorem virtfs_mount_update_rejected_witness :
    { sample_mounted with mnt_flag := MNT_LOCAL ||| MNT_UPDATE }.mnt_flag &&& MNT_UPDATE ≠ 0 ∧
    (virtfs_mount { virtfs_init_session := some (p9_fid.mk 1) }
      { sample_mounted with mnt_flag := MNT_LOCAL ||| MNT_UPDATE }).error = EOPNOTSUPP ∧
    (virtfs_mount { virtfs_init_session := some (p9_fid.mk 1) }
      { sample_mounted with mnt_flag := MNT_LOCAL ||| MNT_UPDATE }).mp =
      { sample_mounted with mnt_flag := MNT_LOCAL ||| MNT_UPDATE } ∧
    (virtfs_mount { virtfs_init_session := some (p9_fid.mk 1) }
      { sample_mounted with mnt_flag := MNT_LOCAL ||| MNT_UPDATE }).trace = [] :=
  have h := virtfs_mount_update_rejected { virtfs_init_session := some (p9_fid.mk 1) }
    { sample_mounted with mnt_flag := MNT_LOCAL ||| MNT_UPDATE } (by decide)
  ⟨by decide, h.1, h.2.1, h.2.2.2.2.2.2⟩

/-- The calls of one more failed round come after those of the rounds before. -/
theorem retry_trace_succ (flags j : Nat) :
    retry_trace flags (j + 1) =
      [unmount_event.vflush flags, unmount_event.tsleep] ++ retry_trace flags j := by
  simp [retry_trace, List.replicate_succ]

/-- The calls of `j` failed rounds contain `j` drain sweeps. -/
theorem retry_trace_count_vflush (flags j : Nat) :
    (retry_trace flags j).count (unmount_event.vflush flags) = j := by
  induction j with
  | zero => simp [retry_trace]
  | succ j ih =>
    rw [retry_trace_succ, List.count_append, ih]
    simp [List.count_cons]
    omega

/-- The calls of `j` failed rounds contain `j` sleeps. -/
theorem retry_trace_count_tsleep (flags j : Nat) :
    (retry_trace flags j).count unmount_event.tsleep = j := by
  induction j with
  | zero => simp [retry_trace]
  | succ j ih =>
    rw [retry_trace_succ, List.count_append, ih]
    simp [List.count_cons]
    omega

/-- The calls of failed rounds contain neither `virtfs_close_session` nor the `free` of
the private mount structure. -/
theorem retry_trace_no_teardown (flags j : Nat) :
    unmount_event.virtfs_close_session ∉ retry_trace flags j ∧
    unmount_event.free_vmp ∉ retry_trace flags j := by
  induction j with
  | zero => simp [retry_trace]
  | succ j ih =>
    rw [retry_trace_succ]
    simp [ih.1, ih.2]

/-- Under `MNT_FORCE`, `j` rounds in which the drain sweep fails and the sleep is not
interrupted take the loop `j` rounds further: `error` is `EBUSY` (when `j > 0`) and the
trace has grown by `j` times a `vflush` and a `tsleep`. -/
theorem unmount_loop_retry (env : unmount_env) (mntflags flags : Nat)
    (hforce : mntflags &&& MNT_FORCE ≠ 0) :
    ∀ (j rem : Nat) (s : unmount_state),
      (∀ n, n < j → env.vflush_busy (s.vflush_calls + n) flags = true) →
      (∀ n, n < j → env.tsleep (s.tsleep_calls + n) ≠ EINTR) →
      unmount_loop env mntflags flags (j + rem) s =
        unmount_loop env mntflags flags rem
          { error := if j = 0 then s.error else EBUSY,
            vflush_calls := s.vflush_calls + j,
            tsleep_calls := s.tsleep_calls + j,
            trace := s.trace ++ retry_trace flags j } := by
  intro j
  induction j with
  | zero =>
    intro rem s _ _
    simp [retry_trace]
  | succ j ih =>
    intro rem s hbusy hsleep
    have hb0 : env.vflush_busy s.vflush_calls flags = true := by
      simpa using hbusy 0 (Nat.succ_pos j)
    have hs0 : env.tsleep s.tsleep_calls ≠ EINTR := by
      simpa using hsleep 0 (Nat.succ_pos j)
    have hrw : j + 1 + rem = (j + rem) + 1 := by omega
    rw [hrw]
    simp only [unmount_loop, vflush, hb0, if_true]
    have hE : ¬ (EBUSY = 0 ∨ mntflags &&& MNT_FORCE = 0) := by
      intro h
      rcases h with h | h
      · exact absurd h (by decide)
      · exact hforce h
    rw [if_neg hE, if_neg hs0]
    rw [ih rem]
    · congr 1
      simp [retry_trace_succ, Nat.add_assoc, Nat.add_comm 1 j]
    · intro n hn
      have := hbusy (n + 1) (by omega)
      simpa [Nat.add_assoc, Nat.add_comm 1 n] using this
    · intro n hn
      have := hsleep (n + 1) (by omega)
      simpa [Nat.add_assoc, Nat.add_comm 1 n] using this

/-- A forced unmount of a mounted mount in which the first `j` drain sweeps fail and the
first `j` sleeps are not interrupted reaches the loop with `10 - j` rounds to go. -/
theorem unmount_loop_force_rounds (env : unmount_env) (mntflags : Nat) (j : Nat)
    (hj : j ≤ 10) (hforce : mntflags &&& MNT_FORCE ≠ 0)
    (hbusy : ∀ n, n < j → env.vflush_busy n FORCECLOSE = true)
    (hsleep : ∀ n, n < j → env.tsleep n ≠ EINTR) :
    unmount_loop env mntflags FORCECLOSE 10 unmount_init =
      unmount_loop env mntflags FORCECLOSE (10 - j)
        { error := if j = 0 then 0 else EBUSY, vflush_calls := j, tsleep_calls := j,
          trace := retry_trace FORCECLOSE j } := by
  have h := unmount_loop_retry env mntflags FORCECLOSE hforce j (10 - j) unmount_init
    (by simpa [unmount_init] using hbusy) (by simpa [unmount_init] using hsleep)
  have hrw : j + (10 - j) = 10 := by omega
  rw [hrw] at h
  rw [h]
  simp [unmount_init]

/-- A forced unmount of a mounted mount with the loop's result `s`: a non-zero `error`
is returned with the mount untouched, otherwise the teardown runs. -/
theorem virtfs_unmount_force_eq (env : unmount_env) (mp : mount) (mntflags : Nat)
    (vmp : struct_virtfs_mount) (s : unmount_state) (hmounted : mp.mnt_data = some vmp)
    (hforce : mntflags &&& MNT_FORCE ≠ 0)
    (hs : unmount_loop env mntflags FORCECLOSE 10 unmount_init = s) :
    virtfs_unmount env mp mntflags =
      if s.error ≠ 0 then { error := s.error, mp := mp, trace := s.trace }
      else { error := s.error, mp := { mp with mnt_data := none },
             trace := s.trace ++
               [unmount_event.virtfs_close_session, unmount_event.free_vmp] } := by
  have hflags : (if mntflags &&& MNT_FORCE ≠ 0 then 0 ||| FORCECLOSE else 0) = FORCECLOSE := by
    rw [if_pos hforce]
    exact Nat.zero_or FORCECLOSE
  unfold virtfs_unmount
  rw [hmounted]
  simp only [hflags, hs]

/-- The loop's result when all 10 rounds fail without an interrupted sleep. -/
theorem unmount_loop_force_exhausted (env : unmount_env) (mntflags : Nat)
    (hforce : mntflags &&& MNT_FORCE ≠ 0)
    (hbusy : ∀ n, n < 10 → env.vflush_busy n FORCECLOSE = true)
    (hsleep : ∀ n, n < 10 → env.tsleep n ≠ EINTR) :
    unmount_loop env mntflags FORCECLOSE 10 unmount_init =
      { error := EBUSY, vflush_calls := 10, tsleep_calls := 10,
        trace := retry_trace FORCECLOSE 10 } := by
  rw [unmount_loop_force_rounds env mntflags 10 (le_refl 10) hforce hbusy hsleep]
  simp [unmount_loop]

/-- C7, as stated, fails: a forced unmount of a mounted mount in which all 10 drain
sweeps fail and no sleep is interrupted does not tear down. It returns `EBUSY`,
`virtfs_close_session` is not called and the mount is as before. -/
theorem unmount_force_exhausted_counterexample :
    sample_mounted.mnt_data ≠ none ∧
    MNT_FORCE &&& MNT_FORCE ≠ 0 ∧
    (∀ n, n < 10 → vflush env_always_busy n FORCECLOSE ≠ 0) ∧
    (∀ n, env_always_busy.tsleep n ≠ EINTR) ∧
    ¬ (unmount_event.virtfs_close_session ∈
        (virtfs_unmount env_always_busy sample_mounted MNT_FORCE).trace ∧
      (virtfs_unmount env_always_busy sample_mounted MNT_FORCE).mp.mnt_data = none) ∧
    (virtfs_unmount env_always_busy sample_mounted MNT_FORCE).error = EBUSY ∧
    (virtfs_unmount env_always_busy sample_mounted MNT_FORCE).mp = sample_mounted := by
  refine ⟨by decide, by decide, ?_, ?_, by decide, by decide, by decide⟩
  · intro n _
    simp [vflush, env_always_busy, EBUSY]
  · intro n
    simp [env_always_busy, EINTR]

/-- C7, amended: a forced unmount of a mounted mount in which all 10 drain sweeps fail
and no sleep is interrupted returns `EBUSY` and does not tear down:
`virtfs_close_session` is not called, the private mount structure is not freed and the
mount, `mnt_data` included, is unchanged. -/
theorem unmount_force_exhausted_busy (env : unmount_env) (mp : mount) (mntflags : Nat)
    (vmp : struct_virtfs_mount) (hmounted : mp.mnt_data = some vmp)
    (hforce : mntflags &&& MNT_FORCE ≠ 0)
    (hbusy : ∀ n, n < 10 → env.vflush_busy n FORCECLOSE = true)
    (hsleep : ∀ n, n < 10 → env.tsleep n ≠ EINTR) :
    (virtfs_unmount env mp mntflags).error = EBUSY ∧
    (virtfs_unmount env mp mntflags).mp = mp ∧
    (virtfs_unmount env mp mntflags).mp.mnt_data = some vmp ∧
    unmount_event.virtfs_close_session ∉ (virtfs_unmount env mp mntflags).trace ∧
    unmount_event.free_vmp ∉ (virtfs_unmount env mp mntflags).trace := by
  have hnt := retry_trace_no_teardown FORCECLOSE 10
  have hE : EBUSY ≠ 0 := by decide
  rw [virtfs_unmount_force_eq env mp mntflags vmp _ hmounted hforce
    (unmount_loop_force_exhausted env mntflags hforce hbusy hsleep)]
  simp [hE, hmounted, hnt.1, hnt.2]

/-- C7 amended, at a sample input. -/
theorem unmount_force_exhausted_busy_witness :
    (virtfs_unmount env_always_busy sample_mounted MNT_FORCE).error = EBUSY ∧
    (virtfs_unmount env_always_busy sample_mounted MNT_FORCE).mp = sample_mounted :=
  have h := unmount_force_exhausted_busy env_always_busy sample_mounted MNT_FORCE
    { virtfs_session := { rnp := { virtfs_node_zero with vfid := some (p9_fid.mk 1) } } }
    rfl (by decide) (fun _ _ => rfl) (fun _ _ => by simp [env_always_busy, EINTR])
  ⟨h.1, h.2.1⟩

/-- C8: in a forced unmount of a mounted mount in which every drain sweep fails and no
sleep returns `EINTR`, the loop ends after exactly 10 drain sweeps, each followed by
exactly one sleep: the calls made are 10 times a `vflush` followed by a `tsleep`, and
nothing else. -/
theorem unmount_force_ten_attempts (env : unmount_env) (mp : mount) (mntflags : Nat)
    (vmp : struct_virtfs_mount) (hmounted : mp.mnt_data = some vmp)
    (hforce : mntflags &&& MNT_FORCE ≠ 0)
    (hbusy : ∀ n, env.vflush_busy n FORCECLOSE = true)
    (hsleep : ∀ n, env.tsleep n ≠ EINTR) :
    (virtfs_unmount env mp mntflags).trace = retry_trace FORCECLOSE 10 ∧
    (virtfs_unmount env mp mntflags).trace.count (unmount_event.vflush FORCECLOSE) = 10 ∧
    (virtfs_unmount env mp mntflags).trace.count unmount_event.tsleep = 10 ∧
    (unmount_loop env mntflags FORCECLOSE 10 unmount_init).vflush_calls = 10 ∧
    (unmount_loop env mntflags FORCECLOSE 10 unmount_init).tsleep_calls = 10 := by
  have hloop := unmount_loop_force_exhausted env mntflags hforce
    (fun n _ => hbusy n) (fun n _ => hsleep n)
  have hE : EBUSY ≠ 0 := by decide
  have htrace : (virtfs_unmount env mp mntflags).trace = retry_trace FORCECLOSE 10 := by
    rw [virtfs_unmount_force_eq env mp mntflags vmp _ hmounted hforce hloop]
    simp [hE]
  refine ⟨htrace, ?_, ?_, ?_, ?_⟩
  · rw [htrace]; exact retry_trace_count_vflush FORCECLOSE 10
  · rw [htrace]; exact retry_trace_count_tsleep FORCECLOSE 10
  · rw [hloop]
  · rw [hloop]

/-- C8, at a sample input: the calls are spelled out. -/
theorem unmount_force_ten_attempts_witness :
    (virtfs_unmount env_always_busy sample_mounted MNT_FORCE).trace =
      [unmount_event.vflush 2, unmount_event.tsleep, unmount_event.vflush 2,
       unmount_event.tsleep, unmount_event.vflush 2, unmount_event.tsleep,
       unmount_event.vflush 2, unmount_event.tsleep, unmount_event.vflush 2,
       unmount_event.tsleep, unmount_event.vflush 2, unmount_event.tsleep,
       unmount_event.vflush 2, unmount_event.tsleep, unmount_event.vflush 2,
       unmount_event.tsleep, unmount_event.vflush 2, unmount_event.tsleep,
       unmount_event.vflush 2, unmount_event.tsleep] :=
  (unmount_force_ten_attempts env_always_busy sample_mounted MNT_FORCE
    { virtfs_session := { rnp := { virtfs_node_zero with vfid := some (p9_fid.mk 1) } } }
    rfl (by decide) (fun _ => rfl) (fun _ => by simp [env_always_busy, EINTR])).1.trans (by decide)

/-- The calls of one more failed round, written after those of the rounds before. -/
theorem retry_trace_succ_snoc (flags j : Nat) :
    retry_trace flags (j + 1) =
      retry_trace flags j ++ [unmount_event.vflush flags, unmount_event.tsleep] := by
  induction j with
  | zero => simp [retry_trace]
  | succ j ih =>
    have h := (retry_trace_succ flags j).symm.trans ih
    rw [retry_trace_succ flags (j + 1), ih, ← List.append_assoc, h]

/-- The loop's result when the first `j` rounds fail without an interrupted sleep and
round `j + 1` fails with its sleep interrupted: the loop breaks with `EINTR`. -/
theorem unmount_loop_force_interrupted (env : unmount_env) (mntflags : Nat) (j : Nat)
    (hj : j + 1 ≤ 10) (hforce : mntflags &&& MNT_FORCE ≠ 0)
    (hbusy : ∀ n, n < j + 1 → env.vflush_busy n FORCECLOSE = true)
    (hsleep : ∀ n, n < j → env.tsleep n ≠ EINTR)
    (hintr : env.tsleep j = EINTR) :
    unmount_loop env mntflags FORCECLOSE 10 unmount_init =
      { error := EINTR, vflush_calls := j + 1, tsleep_calls := j + 1,
        trace := retry_trace FORCECLOSE (j + 1) } := by
  rw [unmount_loop_force_rounds env mntflags j (by omega) hforce
    (fun n hn => hbusy n (by omega)) hsleep]
  have hrem : 10 - j = (9 - j) + 1 := by omega
  rw [hrem]
  have hb : env.vflush_busy j FORCECLOSE = true := hbusy j (by omega)
  have hE : ¬ (EBUSY = 0 ∨ mntflags &&& MNT_FORCE = 0) := by
    intro h
    rcases h with h | h
    · exact absurd h (by decide)
    · exact hforce h
  simp only [unmount_loop, vflush, hb, if_true]
  rw [if_neg hE, if_pos hintr]
  simp [hintr, retry_trace_succ_snoc]

/-- C9: for `1 ≤ k ≤ 10`, a forced unmount of a mounted mount in which drain sweeps
`1..k` fail and the sleep after sweep `k` is the first one interrupted returns `EINTR`
after exactly `k` drain sweeps and without teardown: `virtfs_close_session` is not
called, nothing is freed and the mount, `mnt_data` included, is unchanged. -/
theorem unmount_force_interrupted (env : unmount_env) (mp : mount) (mntflags : Nat)
    (vmp : struct_virtfs_mount) (k : Nat) (hk1 : 1 ≤ k) (hk10 : k ≤ 10)
    (hmounted : mp.mnt_data = some vmp) (hforce : mntflags &&& MNT_FORCE ≠ 0)
    (hbusy : ∀ n, n < k → env.vflush_busy n FORCECLOSE = true)
    (hsleep : ∀ n, n + 1 < k → env.tsleep n ≠ EINTR)
    (hintr : env.tsleep (k - 1) = EINTR) :
    (virtfs_unmount env mp mntflags).error = EINTR ∧
    (virtfs_unmount env mp mntflags).mp = mp ∧
    (virtfs_unmount env mp mntflags).mp.mnt_data = some vmp ∧
    (virtfs_unmount env mp mntflags).trace = retry_trace FORCECLOSE k ∧
    (virtfs_unmount env mp mntflags).trace.count (unmount_event.vflush FORCECLOSE) = k ∧
    unmount_event.virtfs_close_session ∉ (virtfs_unmount env mp mntflags).trace ∧
    unmount_event.free_vmp ∉ (virtfs_unmount env mp mntflags).trace := by
  obtain ⟨j, rfl⟩ : ∃ j, k = j + 1 := ⟨k - 1, by omega⟩
  have hloop := unmount_loop_force_interrupted env mntflags j hk10 hforce hbusy
    (fun n hn => hsleep n (by omega)) (by simpa using hintr)
  have hnt := retry_trace_no_teardown FORCECLOSE (j + 1)
  have hE : EINTR ≠ 0 := by decide
  rw [virtfs_unmount_force_eq env mp mntflags vmp _ hmounted hforce hloop]
  simp [hE, hmounted, hnt.1, hnt.2, retry_trace_count_vflush]

/-- C9, at a sample input: the spec's scenario, the 4th sleep is interrupted. -/
theorem unmount_force_interrupted_witness :
    (virtfs_unmount (env_interrupt_at 4) sample_mounted MNT_FORCE).error = EINTR ∧
    (virtfs_unmount (env_interrupt_at 4) sample_mounted MNT_FORCE).mp = sample_mounted ∧
    (virtfs_unmount (env_interrupt_at 4) sample_mounted MNT_FORCE).trace =
      [unmount_event.vflush 2, unmount_event.tsleep, unmount_event.vflush 2,
       unmount_event.tsleep, unmount_event.vflush 2, unmount_event.tsleep,
       unmount_event.vflush 2, unmount_event.tsleep] :=
  have h := unmount_force_interrupted (env_interrupt_at 4) sample_mounted MNT_FORCE
    { virtfs_session := { rnp := { virtfs_node_zero with vfid := some (p9_fid.mk 1) } } }
    4 (by decide) (by decide) rfl (by decide) (fun _ _ => rfl)
    (fun n hn => by
      have hne : n ≠ 3 := by omega
      simp [env_interrupt_at, hne, EINTR])
    (by decide)
  ⟨h.1, h.2.1, h.2.2.2.1.trans (by decide)⟩

/-- C10: an unmount without `MNT_FORCE` of a mounted mount whose drain sweep fails
returns `EBUSY` after exactly one drain sweep and no sleep, and the mount is unchanged:
`virtfs_close_session` is not called and `mnt_data` is the same private structure. -/
theorem unmount_noforce_busy (env : unmount_env) (mp : mount) (mntflags : Nat)
    (vmp : struct_virtfs_mount) (hmounted : mp.mnt_data = some vmp)
    (hnoforce : mntflags &&& MNT_FORCE = 0)
    (hfail : vflush env 0 0 ≠ 0) :
    (virtfs_unmount env mp mntflags).error = EBUSY ∧
    (virtfs_unmount env mp mntflags).mp = mp ∧
    (virtfs_unmount env mp mntflags).mp.mnt_data = some vmp ∧
    (virtfs_unmount env mp mntflags).trace = [unmount_event.vflush 0] := by
  have hb : env.vflush_busy 0 0 = true := by
    unfold vflush at hfail
    by_cases h : env.vflush_busy 0 0 = true
    · exact h
    · simp [h] at hfail
  have hE : EBUSY ≠ 0 := by decide
  have hloop : unmount_loop env mntflags 0 10 unmount_init =
      { error := EBUSY, vflush_calls := 1, tsleep_calls := 0,
        trace := [unmount_event.vflush 0] } := by
    rw [show (10 : Nat) = 9 + 1 from rfl]
    simp [unmount_loop, vflush, unmount_init, hb, hnoforce]
  unfold virtfs_unmount
  rw [hmounted]
  simp [hnoforce, hloop, hE, hmounted]

/-- C10, at a sample input. -/
theorem unmount_noforce_busy_witness :
    vflush env_busy_once 0 0 ≠ 0 ∧
    (virtfs_unmount env_busy_once sample_mounted 0).error = EBUSY ∧
    (virtfs_unmount env_busy_once sample_mounted 0).mp = sample_mounted ∧
    (virtfs_unmount env_busy_once sample_mounted 0).trace = [unmount_event.vflush 0] :=
  have h := unmount_noforce_busy env_busy_once sample_mounted 0
    { virtfs_session := { rnp := { virtfs_node_zero with vfid := some (p9_fid.mk 1) } } }
    rfl (by decide) (by decide)
  ⟨by decide, h.1, h.2.1, h.2.2.2⟩

/-- The loop's result when the first `j` rounds fail without an interrupted sleep
(`j > 0` only under `MNT_FORCE`) and the drain sweep of round `j + 1` succeeds: the loop
breaks with `error = 0` right after that sweep. -/
theorem unmount_loop_drain_success (env : unmount_env) (mntflags : Nat) (j : Nat)
    (hj : j + 1 ≤ 10) (hforce : j = 0 ∨ mntflags &&& MNT_FORCE ≠ 0)
    (hbusy : ∀ n, n < j →
      env.vflush_busy n (if mntflags &&& MNT_FORCE ≠ 0 then FORCECLOSE else 0) = true)
    (hsleep : ∀ n, n < j → env.tsleep n ≠ EINTR)
    (hok : env.vflush_busy j (if mntflags &&& MNT_FORCE ≠ 0 then FORCECLOSE else 0)
      = false) :
    unmount_loop env mntflags (if mntflags &&& MNT_FORCE ≠ 0 then FORCECLOSE else 0) 10
        unmount_init =
      { error := 0, vflush_calls := j + 1, tsleep_calls := j,
        trace := retry_trace (if mntflags &&& MNT_FORCE ≠ 0 then FORCECLOSE else 0) j ++
          [unmount_event.vflush (if mntflags &&& MNT_FORCE ≠ 0 then FORCECLOSE else 0)] } := by
  by_cases hf : mntflags &&& MNT_FORCE ≠ 0
  · simp only [if_pos hf] at hbusy hok ⊢
    rw [unmount_loop_force_rounds env mntflags j (by omega) hf hbusy hsleep]
    have hrem : 10 - j = (9 - j) + 1 := by omega
    rw [hrem]
    simp [unmount_loop, vflush, hok]
  · have hj0 : j = 0 := by
      rcases hforce with h | h
      · exact h
      · exact absurd h hf
    subst hj0
    simp only [if_neg hf] at hok ⊢
    rw [show (10 : Nat) = 9 + 1 from rfl]
    simp [unmount_loop, vflush, unmount_init, hok, retry_trace]

/-- The function `virtfs_unmount` on a mounted mount, with the loop's result `s`: a
non-zero `error` is returned with the mount untouched, otherwise the teardown runs. -/
theorem virtfs_unmount_eq (env : unmount_env) (mp : mount) (mntflags : Nat)
    (vmp : struct_virtfs_mount) (s : unmount_state) (hmounted : mp.mnt_data = some vmp)
    (hs : unmount_loop env mntflags (if mntflags &&& MNT_FORCE ≠ 0 then FORCECLOSE else 0)
      10 unmount_init = s) :
    virtfs_unmount env mp mntflags =
      if s.error ≠ 0 then { error := s.error, mp := mp, trace := s.trace }
      else { error := s.error, mp := { mp with mnt_data := none },
             trace := s.trace ++
               [unmount_event.virtfs_close_session, unmount_event.free_vmp] } := by
  have hflags : (if mntflags &&& MNT_FORCE ≠ 0 then 0 ||| FORCECLOSE else 0) =
      (if mntflags &&& MNT_FORCE ≠ 0 then FORCECLOSE else 0) := by
    rw [Nat.zero_or]
  unfold virtfs_unmount
  rw [hmounted]
  simp only [hflags, hs]

/-- C11: on a mounted mount, when drain sweep `k` of `virtfs_unmount` succeeds, for
`k = 1` or, under `MNT_FORCE`, for any `k ≤ 10` reached through failed sweeps and
uninterrupted sleeps, the function returns 0, calls `virtfs_close_session` exactly
once and leaves `mnt_data = NULL`; the successful sweep is the last one: the calls are
the `k - 1` failed rounds, the `k`-th `vflush`, then the teardown. -/
theorem unmount_drain_success (env : unmount_env) (mp : mount) (mntflags flags : Nat)
    (vmp : struct_virtfs_mount) (k : Nat) (hk1 : 1 ≤ k) (hk10 : k ≤ 10)
    (hmounted : mp.mnt_data = some vmp)
    (hflags : flags = if mntflags &&& MNT_FORCE ≠ 0 then FORCECLOSE else 0)
    (hforce : k = 1 ∨ mntflags &&& MNT_FORCE ≠ 0)
    (hbusy : ∀ n, n + 1 < k → env.vflush_busy n flags = true)
    (hsleep : ∀ n, n + 1 < k → env.tsleep n ≠ EINTR)
    (hok : vflush env (k - 1) flags = 0) :
    (virtfs_unmount env mp mntflags).error = 0 ∧
    (virtfs_unmount env mp mntflags).mp.mnt_data = none ∧
    (virtfs_unmount env mp mntflags).mp = { mp with mnt_data := none } ∧
    (virtfs_unmount env mp mntflags).trace =
      retry_trace flags (k - 1) ++ [unmount_event.vflush flags,
        unmount_event.virtfs_close_session, unmount_event.free_vmp] ∧
    (virtfs_unmount env mp mntflags).trace.count unmount_event.virtfs_close_session = 1 ∧
    (virtfs_unmount env mp mntflags).trace.count (unmount_event.vflush flags) = k := by
  obtain ⟨j, rfl⟩ : ∃ j, k = j + 1 := ⟨k - 1, by omega⟩
  have hokb : env.vflush_busy j flags = false := by
    unfold vflush at hok
    by_cases h : env.vflush_busy (j + 1 - 1) flags = true
    · rw [if_pos h] at hok
      exact absurd hok (by decide)
    · simpa using h
  have hforce0 : j = 0 ∨ mntflags &&& MNT_FORCE ≠ 0 := by
    rcases hforce with h | h
    · left; omega
    · right; exact h
  have hloop : unmount_loop env mntflags flags 10 unmount_init =
      { error := 0, vflush_calls := j + 1, tsleep_calls := j,
        trace := retry_trace flags j ++ [unmount_event.vflush flags] } := by
    have h := unmount_loop_drain_success env mntflags j hk10 hforce0
      (by rw [← hflags]; exact fun n hn => hbusy n (by omega))
      (fun n hn => hsleep n (by omega)) (by rw [← hflags]; exact hokb)
    rw [← hflags] at h
    exact h
  have hnt := retry_trace_no_teardown flags j
  have hloop2 : unmount_loop env mntflags
      (if mntflags &&& MNT_FORCE ≠ 0 then FORCECLOSE else 0) 10 unmount_init =
      { error := 0, vflush_calls := j + 1, tsleep_calls := j,
        trace := retry_trace flags j ++ [unmount_event.vflush flags] } := by
    rw [← hflags]
    exact hloop
  rw [virtfs_unmount_eq env mp mntflags vmp _ hmounted hloop2]
  refine ⟨by simp, by simp, by simp, by simp, ?_, ?_⟩
  · simp [List.count_append, List.count_eq_zero_of_not_mem hnt.1, List.count_cons]
  · simp [List.count_append, retry_trace_count_vflush, List.count_cons]

/-- C11, at sample inputs: an unforced unmount whose first sweep succeeds, and a forced
unmount whose third sweep succeeds. -/
theorem unmount_drain_success_witness :
    ((virtfs_unmount (env_drain_at 1) sample_mounted 0).error = 0 ∧
     (virtfs_unmount (env_drain_at 1) sample_mounted 0).mp.mnt_data = none ∧
     (virtfs_unmount (env_drain_at 1) sample_mounted 0).trace =
       [unmount_event.vflush 0, unmount_event.virtfs_close_session,
        unmount_event.free_vmp]) ∧
    ((virtfs_unmount (env_drain_at 3) sample_mounted MNT_FORCE).error = 0 ∧
     (virtfs_unmount (env_drain_at 3) sample_mounted MNT_FORCE).mp.mnt_data = none ∧
     (virtfs_unmount (env_drain_at 3) sample_mounted MNT_FORCE).trace =
       [unmount_event.vflush 2, unmount_event.tsleep, unmount_event.vflush 2,
        unmount_event.tsleep, unmount_event.vflush 2,
        unmount_event.virtfs_close_session, unmount_event.free_vmp]) :=
  have h1 := unmount_drain_success (env_drain_at 1) sample_mounted 0 0
    { virtfs_session := { rnp := { virtfs_node_zero with vfid := some (p9_fid.mk 1) } } }
    1 (by decide) (by decide) rfl (by decide) (Or.inl rfl)
    (fun n hn => absurd hn (by omega))
    (fun n hn => absurd hn (by omega))
    (by decide)
  have h3 := unmount_drain_success (env_drain_at 3) sample_mounted MNT_FORCE FORCECLOSE
    { virtfs_session := { rnp := { virtfs_node_zero with vfid := some (p9_fid.mk 1) } } }
    3 (by decide) (by decide) rfl (by decide) (Or.inr (by decide))
    (fun n hn => by simp [env_drain_at, hn])
    (fun n _ => by simp [env_drain_at, EINTR])
    (by decide)
  ⟨⟨h1.1, h1.2.1, h1.2.2.2.1.trans (by decide)⟩,
   ⟨h3.1, h3.2.1, h3.2.2.2.1.trans (by decide)⟩⟩

/-- C12, at failing inputs: `virtfs_root` on a mount whose `mnt_data` is `NULL`, before
a mount and after a successful unmount. The function has no "not mounted" test: it
loads `np->vfid` through the null private pointer and does not return (`none`), so no
error comes back. On a mounted mount it returns 0 with the root vnode. -/
theorem virtfs_root_unmounted_faults :
    sample_unmounted.mnt_data = none ∧
    virtfs_root (sample_env 100 true) id [] sample_unmounted 0 = none ∧
    (virtfs_unmount (env_drain_at 1) sample_mounted 0).error = 0 ∧
    (virtfs_unmount (env_drain_at 1) sample_mounted 0).mp.mnt_data = none ∧
    virtfs_root (sample_env 100 true) id []
      (virtfs_unmount (env_drain_at 1) sample_mounted 0).mp 0 = none ∧
    (virtfs_root (sample_env 100 true) id [] sample_mounted 0).map (fun r => r.error)
      = some 0 ∧
    (virtfs_root (sample_env 100 true) id [] sample_mounted 0).map (fun r => r.vpp)
      = some (some 100) := by
  decide

/-- C13, as stated, fails: two calls of `virtfs_vget_wrapper` with the fid numbers 5 and
6 whose attribute fetches both answer the qid with path 77. The keys of the lookups
and inserts are 5 and 6, not 77; the second call misses and the vnode hash ends up
with two vnodes for the one qid. -/
theorem vget_wrapper_key_counterexample :
    ((virtfs_vget_wrapper (sample_env 100 true) id [] none 0 (p9_fid.mk 5)).p9_node.map
      (fun n => n.vqid.qid_path) = some 77) ∧
    ((virtfs_vget_wrapper (sample_env 200 true) id [(5, 100)] none 0
      (p9_fid.mk 6)).p9_node.map (fun n => n.vqid.qid_path) = some 77) ∧
    (virtfs_vget_wrapper (sample_env 100 true) id [] none 0 (p9_fid.mk 5)).trace =
      [vget_event.vfs_hash_get 5 0, vget_event.getnewvnode, vget_event.malloc_node,
       vget_event.lockmgr 100, vget_event.insmntque 100, vget_event.vfs_hash_insert 100 5 0,
       vget_event.p9_client_getattr_dotl 5, vget_event.virtfs_stat_vnode_l,
       vget_event.free_stat] ∧
    (virtfs_vget_wrapper (sample_env 100 true) id [] none 0 (p9_fid.mk 5)).tbl
      = [(5, 100)] ∧
    (virtfs_vget_wrapper (sample_env 200 true) id [(5, 100)] none 0 (p9_fid.mk 6)).trace =
      [vget_event.vfs_hash_get 6 0, vget_event.getnewvnode, vget_event.malloc_node,
       vget_event.lockmgr 200, vget_event.insmntque 200, vget_event.vfs_hash_insert 200 6 0,
       vget_event.p9_client_getattr_dotl 6, vget_event.virtfs_stat_vnode_l,
       vget_event.free_stat] ∧
    (virtfs_vget_wrapper (sample_env 200 true) id [(5, 100)] none 0 (p9_fid.mk 6)).tbl
      = [(6, 200), (5, 100)] ∧
    (virtfs_vget_wrapper (sample_env 100 true) id [] none 0 (p9_fid.mk 5)).vpp ≠
      (virtfs_vget_wrapper (sample_env 200 true) id [(5, 100)] none 0 (p9_fid.mk 6)).vpp ∧
    ¬ (vget_event.vfs_hash_get 77 0 ∈
        (virtfs_vget_wrapper (sample_env 100 true) id [] none 0 (p9_fid.mk 5)).trace ∧
       vget_event.vfs_hash_get 77 0 ∈
        (virtfs_vget_wrapper (sample_env 200 true) id [(5, 100)] none 0
          (p9_fid.mk 6)).trace) := by
  decide

/-- The calls of the lookup part: the first is the `vfs_hash_get` with key `fid->fid`,
it is the only `vfs_hash_get`, and there is no `vfs_hash_insert`. -/
theorem vget_lookup_trace_keys (env : vget_env) (tbl : vfs_hash)
    (p9_node : Option virtfs_node) (flags : Nat) (fid : p9_fid) :
    vget_event.vfs_hash_get fid.fid flags ∈ (vget_lookup env tbl p9_node flags fid).2 ∧
    (∀ i f, vget_event.vfs_hash_get i f ∈ (vget_lookup env tbl p9_node flags fid).2 →
      i = fid.fid) ∧
    (∀ vp i f, vget_event.vfs_hash_insert vp i f ∉
      (vget_lookup env tbl p9_node flags fid).2) := by
  unfold vget_lookup
  simp only
  split
  · simp
  · split
    · simp
    · split
      · cases p9_node <;> simp
      · cases p9_node <;> simp

/-- The calls of the insert part: the only `vfs_hash_insert` has the key the call
carried over from its lookup, and there is no `vfs_hash_get`. -/
theorem vget_insert_trace_keys (env : vget_env) (tbl : vfs_hash) (p : vget_pending) :
    (∀ vp i f, vget_event.vfs_hash_insert vp i f ∈ (vget_insert env tbl p).trace →
      i = p.ino) ∧
    (∀ i f, vget_event.vfs_hash_get i f ∉ (vget_insert env tbl p).trace) := by
  unfold vget_insert
  simp only
  split
  · simp
    intro _ _ _ _ h _
    exact h
  · split
    · split <;>
      · simp
        intro _ _ _ _ h _
        exact h
    · split <;>
      · simp
        intro _ _ _ _ h _
        exact h

/-- The keys in the calls of `virtfs_vget_wrapper`: the call makes the `vfs_hash_get`
with key `fid->fid`, and every `vfs_hash_get` and `vfs_hash_insert` it makes has that
key. -/
theorem vget_wrapper_trace_keys (env : vget_env) (others : vfs_hash → vfs_hash)
    (tbl : vfs_hash) (p9_node : Option virtfs_node) (flags : Nat) (fid : p9_fid) :
    vget_event.vfs_hash_get fid.fid flags ∈
      (virtfs_vget_wrapper env others tbl p9_node flags fid).trace ∧
    (∀ i f, vget_event.vfs_hash_get i f ∈
      (virtfs_vget_wrapper env others tbl p9_node flags fid).trace → i = fid.fid) ∧
    (∀ vp i f, vget_event.vfs_hash_insert vp i f ∈
      (virtfs_vget_wrapper env others tbl p9_node flags fid).trace → i = fid.fid) := by
  have hl := vget_lookup_trace_keys env tbl p9_node flags fid
  have hino := vget_lookup_pending_ino env tbl p9_node flags fid
  unfold virtfs_vget_wrapper
  cases hlk : vget_lookup env tbl p9_node flags fid with
  | mk ph t =>
    rw [hlk] at hl hino
    simp only at hl hino
    cases ph with
    | returned error vpp =>
      simp only
      exact ⟨hl.1, hl.2.1, fun vp i f h => absurd h (hl.2.2 vp i f)⟩
    | pending p =>
      have hi := vget_insert_trace_keys env (others tbl) p
      have hp : p.ino = fid.fid := hino p rfl
      simp only [List.mem_append]
      refine ⟨Or.inl hl.1, ?_, ?_⟩
      · intro i f h
        rcases h with h | h
        · exact hl.2.1 i f h
        · exact absurd h (hi.2 i f)
      · intro vp i f h
        rcases h with h | h
        · exact absurd h (hl.2.2 vp i f)
        · rw [← hp]
          exact hi.1 vp i f h

/-- C13, amended: the key of the lookup (`vfs_hash_get`) and of the insert
(`vfs_hash_insert`) of every call of `virtfs_vget_wrapper` is the client-held fid number
`fid->fid`, whatever qid the attribute fetch answers; so two calls with different fid
numbers use different keys, also when they address the same qid. -/
theorem vget_wrapper_key_is_fid (env : vget_env) (others : vfs_hash → vfs_hash)
    (tbl : vfs_hash) (p9_node : Option virtfs_node) (flags : Nat) (fid : p9_fid)
    (env2 : vget_env) (others2 : vfs_hash → vfs_hash) (tbl2 : vfs_hash)
    (p9_node2 : Option virtfs_node) (flags2 : Nat) (fid2 : p9_fid) :
    vget_event.vfs_hash_get fid.fid flags ∈
      (virtfs_vget_wrapper env others tbl p9_node flags fid).trace ∧
    (∀ i f, vget_event.vfs_hash_get i f ∈
      (virtfs_vget_wrapper env others tbl p9_node flags fid).trace → i = fid.fid) ∧
    (∀ vp i f, vget_event.vfs_hash_insert vp i f ∈
      (virtfs_vget_wrapper env others tbl p9_node flags fid).trace → i = fid.fid) ∧
    (fid.fid ≠ fid2.fid → ∀ i f i2 f2,
      vget_event.vfs_hash_get i f ∈
        (virtfs_vget_wrapper env others tbl p9_node flags fid).trace →
      vget_event.vfs_hash_get i2 f2 ∈
        (virtfs_vget_wrapper env2 others2 tbl2 p9_node2 flags2 fid2).trace →
      i ≠ i2) := by
  have h1 := vget_wrapper_trace_keys env others tbl p9_node flags fid
  have h2 := vget_wrapper_trace_keys env2 others2 tbl2 p9_node2 flags2 fid2
  refine ⟨h1.1, h1.2.1, h1.2.2, ?_⟩
  intro hne i f i2 f2 hi hi2
  rw [h1.2.1 i f hi, h2.2.1 i2 f2 hi2]
  exact hne

/-- C13 amended, at a sample input: the calls with fid 5 and fid 6 for the qid with
path 77 look up and insert under 5 and under 6. -/
theorem vget_wrapper_key_is_fid_witness :
    (p9_fid.mk 5).fid ≠ (p9_fid.mk 6).fid ∧
    vget_event.vfs_hash_get 5 0 ∈
      (virtfs_vget_wrapper (sample_env 100 true) id [] none 0 (p9_fid.mk 5)).trace ∧
    vget_event.vfs_hash_insert 100 5 0 ∈
      (virtfs_vget_wrapper (sample_env 100 true) id [] none 0 (p9_fid.mk 5)).trace ∧
    (5 : Nat) = (p9_fid.mk 5).fid ∧
    (5 : Nat) ≠ 6 :=
  have h := vget_wrapper_key_is_fid (sample_env 100 true) id [] none 0 (p9_fid.mk 5)
    (sample_env 200 true) id [(5, 100)] none 0 (p9_fid.mk 6)
  ⟨by decide, h.1, by decide, h.2.2.1 100 5 0 (by decide),
    h.2.2.2 (by decide) 5 0 6 0 (by decide) (by decide)⟩

end Virtfs

namespace AwThermal

/-- C14, at failing inputs: the 12-bit readings 2720 (A83T) and 2171 (A64), the first
ones with `1000 * val` above the base. The difference is computed in `uint32_t` and
wraps, so `a83t_to_temp 2720` is 302760 and `a64_to_temp 2171` is 501748, while the
signed quotients truncated toward zero are 0: the results are positive, and larger than
the results for the readings just below (0), so the conversions are not non-increasing.
At the readings up to the base the results are the signed quotients. The sibling
`h3_to_temp` casts to `int` first and does give negative values. -/
theorem to_temp_unsigned_wraps :
    2720 ≤ DATA_MASK ∧ (A83T_TEMP_BASE : Int) < 1000 * 2720 ∧
    a83t_to_temp 2720 = 302760 ∧
    Int.tdiv ((A83T_TEMP_BASE : Int) - 1000 * 2720) (A83T_TEMP_DIV : Int) = 0 ∧
    a83t_to_temp 2719 = 0 ∧
    a83t_to_temp 2719 < a83t_to_temp 2720 ∧
    ¬ (a83t_to_temp 2720 ≤ 0) ∧
    a83t_to_temp 4095 = 302663 ∧
    Int.tdiv ((A83T_TEMP_BASE : Int) - 1000 * 4095) (A83T_TEMP_DIV : Int) = -96 ∧
    a83t_to_temp 0 = Int.tdiv ((A83T_TEMP_BASE : Int) - 1000 * 0) (A83T_TEMP_DIV : Int) ∧
    2171 ≤ DATA_MASK ∧ (A64_TEMP_BASE : Int) < 1000 * 2171 ∧
    a64_to_temp 2171 = 501748 ∧
    Int.tdiv ((A64_TEMP_BASE : Int) - 1000 * 2171) (A64_TEMP_DIV : Int) = 0 ∧
    a64_to_temp 2170 = 0 ∧
    a64_to_temp 2170 < a64_to_temp 2171 ∧
    ¬ (a64_to_temp 2171 ≤ 0) ∧
    a64_to_temp 0 = Int.tdiv ((A64_TEMP_BASE : Int) - 1000 * 0) (A64_TEMP_DIV : Int) ∧
    h3_to_temp 4095 = -278 := by
  decide

end AwThermal
